import Mathlib

/-!
Verification of the acknowledgment-correlation core of the meshtastic
operator console (CLI variant `meshtastic_cli.py`, GUI variant
`meshtastic_GUI.py`).

The shallow embedding below translates, field by field, the Python
globals and functions that make up the correlator and the send-and-wait
operation:

* the global state `ack_response_status` / `ack_received_event` /
  `waiting_for_ack_from` (CLI lines 25-28, GUI constructor) becomes
  `AckState`;
* the inbound packet dictionary becomes `Packet`, restricted to the
  fields the correlator logic reads (`decoded`, `decoded.portnum`,
  `decoded.routing.errorReason`, `fromId`);
* `on_receive` (CLI lines 31-112) becomes `onReceive`, returning the
  new state together with the disposition of the packet (consumed as an
  acknowledgment / handed to the display block / dropped because it has
  no decoded payload);
* `MeshtasticGUI.on_packet_received` becomes `guiOnPacketReceived`,
  returning the new state and whether the packet was put on the GUI
  display queue;
* the arm / disarm / classify phases of `send_direct_message_and_wait`
  (CLI lines 388-427) and `MeshtasticGUI.send_direct_message_thread`
  become `armAck`, `disarmAck`, `classifyStatus`;
* the blocking wait is abstracted as the list of inbound packets that
  the feed delivers to `on_receive` while the expectation is armed,
  folded by `processAll`.
-/

/-- The `routing` sub-dictionary of a decoded packet.  The correlator
reads only `errorReason`, with `routing.get('errorReason',
'UNKNOWN_RESPONSE')`; an absent key is `none`. -/
structure Routing where
  errorReason : Option String
deriving Repr, DecidableEq

/-- The `decoded` sub-dictionary of a packet, restricted to the fields
the correlator reads: `portnum` (read via `decoded.get('portnum',
'N_A')`) and `routing` (read via `decoded.get('routing', {})`). -/
structure Decoded where
  portnum : Option String
  routing : Option Routing
deriving Repr, DecidableEq

/-- An inbound packet as seen by the correlator: `packet.get('decoded')`
and `packet.get('fromId', 'N/A')`.  Absent keys are `none`. -/
structure Packet where
  decoded : Option Decoded
  fromId : Option String
deriving Repr, DecidableEq

/-- The shared correlator state: the module-level globals
`ack_response_status` (a string), `ack_received_event` (a
`threading.Event`, modelled by its set/cleared bit) and
`waiting_for_ack_from` (`None` or a node id string). -/
structure AckState where
  ackResponseStatus : String
  ackReceived : Bool
  waitingForAckFrom : Option String
deriving Repr, DecidableEq

/-- The initial values of the globals (CLI lines 25-28):
`ack_received_event` cleared, `ack_response_status = "UNKNOWN"`,
`waiting_for_ack_from = None`. -/
def initAckState : AckState :=
  { ackResponseStatus := "UNKNOWN", ackReceived := false, waitingForAckFrom := none }

/-- What `on_receive` does with a packet: consumed as an acknowledgment
(early `return` inside the ack block, so withheld from display), handed
to the ordinary display block, or dropped by the early `return` when the
packet has no `decoded` payload. -/
inductive PacketDisposition where
  | consumed
  | displayed
  | dropped
deriving Repr, DecidableEq

/-- The correlator part of the CLI callback `on_receive` (lines 34-51).
`decoded = packet.get('decoded'); if not decoded: return` drops the
packet.  Otherwise, under `acks_lock`, if `waiting_for_ack_from` is
truthy (non-`None` and non-empty), `from_node_id == waiting_for_ack_from`
and `message_type == 'ROUTING_APP'`, the routing error reason (default
`'UNKNOWN_RESPONSE'`) is recorded, the event is set and the packet is
consumed; otherwise the state is untouched and the packet falls through
to the display block. -/
def onReceive (st : AckState) (pkt : Packet) : AckState × PacketDisposition :=
  match pkt.decoded with
  | none => (st, .dropped)
  | some decoded =>
    let messageType := decoded.portnum.getD "N_A"
    let fromNodeId := pkt.fromId.getD "N/A"
    let isAckForUs :=
      match st.waitingForAckFrom with
      | none => false
      | some w => !(w == "") && fromNodeId == w && messageType == "ROUTING_APP"
    if isAckForUs then
      let error := (decoded.routing.bind Routing.errorReason).getD "UNKNOWN_RESPONSE"
      ({ st with ackResponseStatus := error, ackReceived := true }, .consumed)
    else
      (st, .displayed)

/-- The GUI callback `MeshtasticGUI.on_packet_received` (GUI lines
261-273).  Under `acks_lock`, if `waiting_for_ack_from` is truthy,
`packet.get('fromId') == waiting_for_ack_from` and
`packet.get('decoded', {}).get('portnum') == 'ROUTING_APP'`, the routing
error reason (default `'UNKNOWN_RESPONSE'`) is recorded, the event set,
and the packet is not queued for display; otherwise the packet is put on
the display queue unchanged.  The returned `Bool` is whether the packet
was queued. -/
def guiOnPacketReceived (st : AckState) (pkt : Packet) : AckState × Bool :=
  let isAckForUs :=
    match st.waitingForAckFrom with
    | none => false
    | some w =>
        !(w == "") && pkt.fromId == some w
          && (pkt.decoded.bind Decoded.portnum) == some "ROUTING_APP"
  if isAckForUs then
    let error := ((pkt.decoded.bind Decoded.routing).bind Routing.errorReason).getD "UNKNOWN_RESPONSE"
    ({ st with ackResponseStatus := error, ackReceived := true }, false)
  else
    (st, true)

/-- The arm phase of `send_direct_message_and_wait` (CLI lines 392-395)
and of `send_direct_message_thread` (GUI): under `acks_lock`,
`ack_received_event.clear(); ack_response_status = "UNKNOWN";
waiting_for_ack_from = destination_node_id`.  All three fields are
overwritten unconditionally. -/
def armAck (_st : AckState) (dest : String) : AckState :=
  { ackReceived := false, ackResponseStatus := "UNKNOWN", waitingForAckFrom := some dest }

/-- The disarm phase (CLI lines 408-410, GUI lines 435-438): under
`acks_lock`, `status = ack_response_status; waiting_for_ack_from = None`;
the read status is returned together with the new state. -/
def disarmAck (st : AckState) : String × AckState :=
  (st.ackResponseStatus, { st with waitingForAckFrom := none })

/-- The final outcome reported to the user by the send-and-wait
operation. -/
inductive SendOutcome where
  | delivered
  | timeout
  | failed (reason : String)
deriving Repr, DecidableEq

/-- The status classification after the wait (CLI lines 415-420, GUI
lines 439-444): `'NONE'` is reported as delivered, `'UNKNOWN'` as a
timeout ("no acknowledgment was received"), and anything else as a
failure with the status string shown verbatim. -/
def classifyStatus (status : String) : SendOutcome :=
  if status == "NONE" then .delivered
  else if status == "UNKNOWN" then .timeout
  else .failed status

/-- The wait bound used by both variants:
`ack_received_event.wait(timeout=15.0)` (CLI line 406, GUI line 433). -/
def ackTimeoutSeconds : Nat := 15

/-- Folds `on_receive` over the inbound packets the feed delivers, in
arrival order, keeping only the state (the feed pump calls `on_receive`
once per decoded packet). -/
def processAll (st : AckState) (pkts : List Packet) : AckState :=
  pkts.foldl (fun s p => (onReceive s p).1) st

/-- The send-and-wait operation `send_direct_message_and_wait` (CLI
lines 388-423) on the correlator state, with the blocking wait
abstracted as the list `inbound` of packets that `on_receive` processes
while the expectation is armed: arm, deliver the inbound packets,
disarm, classify the status that disarm read. -/
def sendDirectAndWait (st : AckState) (dest : String) (inbound : List Packet) :
    SendOutcome × AckState :=
  let armed := armAck st dest
  let waited := processAll armed inbound
  let (status, cleared) := disarmAck waited
  (classifyStatus status, cleared)

/-- The correlator state left behind when `interface.sendText` raises
inside `send_direct_message_and_wait`: the arm phase (lines 392-395) has
run, the exception skips the wait and the disarm, and the `except`
handler (CLI lines 425-427) only prints the error — it neither clears
`waiting_for_ack_from` nor re-raises.  (The GUI handler, lines 446-447,
likewise only logs.) -/
def sendDirectAndWaitSendError (st : AckState) (dest : String) : AckState :=
  armAck st dest

/-- A well-formed delivery-routing notification from `src` carrying the
error reason `reason`, used as a concrete test input. -/
def routingPacket (src reason : String) : Packet :=
  { fromId := some src
    decoded := some { portnum := some "ROUTING_APP"
                      routing := some { errorReason := some reason } } }

/-- Whether the CLI correlator, armed for `dest`, consumes `pkt`:
the packet has a decoded payload, `dest` is truthy, the packet's
`fromId` (default `'N/A'`) equals `dest` and its `portnum` (default
`'N_A'`) is `'ROUTING_APP'`. -/
def cliAckMatch (dest : String) (pkt : Packet) : Bool :=
  match pkt.decoded with
  | none => false
  | some decoded =>
      !(dest == "") && (pkt.fromId.getD "N/A") == dest
        && (decoded.portnum.getD "N_A") == "ROUTING_APP"

/-- The error reason `on_receive` records when it consumes `pkt`:
`decoded.get('routing', {}).get('errorReason', 'UNKNOWN_RESPONSE')`. -/
def packetReason (pkt : Packet) : String :=
  ((pkt.decoded.bind Decoded.routing).bind Routing.errorReason).getD "UNKNOWN_RESPONSE"

/-! ## Helper lemmas about the correlator functions -/

/-- `on_receive` never changes `waiting_for_ack_from`: neither the
consume branch nor the pass-through branch touches it (only the arm and
disarm phases of the send operation do). -/
theorem onReceive_waiting (st : AckState) (pkt : Packet) :
    ((onReceive st pkt).1).waitingForAckFrom = st.waitingForAckFrom := by
  rcases pkt with ⟨d, f⟩
  cases d with
  | none => rfl
  | some decoded =>
      simp only [onReceive]
      split <;> rfl

/-- When the correlator is armed for `dest` and the packet matches,
`on_receive` records the packet's error reason, sets the event and
consumes the packet, leaving `waiting_for_ack_from` untouched. -/
theorem onReceive_match (st : AckState) (dest : String) (pkt : Packet)
    (h : st.waitingForAckFrom = some dest) (hm : cliAckMatch dest pkt = true) :
    onReceive st pkt =
      ({ st with ackResponseStatus := packetReason pkt, ackReceived := true },
        PacketDisposition.consumed) := by
  rcases pkt with ⟨d, f⟩
  cases d with
  | none => simp [cliAckMatch] at hm
  | some decoded =>
      simp only [cliAckMatch] at hm
      simp only [onReceive, h, packetReason, hm, if_true, Option.some_bind]

/-- When the correlator is armed for `dest` and the packet does not
match, `on_receive` leaves the state untouched and does not consume. -/
theorem onReceive_no_match (st : AckState) (dest : String) (pkt : Packet)
    (h : st.waitingForAckFrom = some dest) (hm : cliAckMatch dest pkt = false) :
    (onReceive st pkt).1 = st ∧ (onReceive st pkt).2 ≠ PacketDisposition.consumed := by
  rcases pkt with ⟨d, f⟩
  cases d with
  | none => exact ⟨rfl, by simp [onReceive]⟩
  | some decoded =>
      simp only [cliAckMatch] at hm
      simp only [onReceive, h, hm, if_false]
      exact ⟨rfl, by simp⟩

/-- With no expectation armed, `on_receive` leaves the state untouched
and does not consume. -/
theorem onReceive_unarmed (st : AckState) (pkt : Packet)
    (h : st.waitingForAckFrom = none) :
    (onReceive st pkt).1 = st ∧ (onReceive st pkt).2 ≠ PacketDisposition.consumed := by
  rcases pkt with ⟨d, f⟩
  cases d with
  | none => exact ⟨rfl, by simp [onReceive]⟩
  | some decoded =>
      simp only [onReceive, h, if_false]
      exact ⟨rfl, by simp⟩

/-- With no expectation armed, the GUI callback queues every packet for
display without touching the state. -/
theorem guiOnPacketReceived_unarmed (st : AckState) (pkt : Packet)
    (h : st.waitingForAckFrom = none) :
    guiOnPacketReceived st pkt = (st, true) := by
  simp [guiOnPacketReceived, h]

/-- A run of `on_receive` calls keeps `waiting_for_ack_from` fixed. -/
theorem processAll_waiting (l : List Packet) :
    ∀ st : AckState, (processAll st l).waitingForAckFrom = st.waitingForAckFrom := by
  induction l with
  | nil => intro st; rfl
  | cons p l ih =>
      intro st
      show (processAll (onReceive st p).1 l).waitingForAckFrom = _
      rw [ih, onReceive_waiting]

/-- If no inbound packet matches the armed destination, the whole run of
`on_receive` calls leaves the state untouched. -/
theorem processAll_no_match (dest : String) (l : List Packet) :
    ∀ st : AckState, st.waitingForAckFrom = some dest →
      (∀ p ∈ l, cliAckMatch dest p = false) → processAll st l = st := by
  induction l with
  | nil => intro st _ _; rfl
  | cons p l ih =>
      intro st h hnm
      have hp := hnm p (List.mem_cons_self p l)
      have h1 := (onReceive_no_match st dest p h hp).1
      show processAll (onReceive st p).1 l = st
      rw [h1]
      exact ih st h (fun q hq => hnm q (List.mem_cons_of_mem p hq))

/-- Status provenance: while armed for `dest`, a run of `on_receive`
calls either leaves `ack_response_status` as it was, or sets it to the
error reason of some matching packet of the run. -/
theorem processAll_status (dest : String) (l : List Packet) :
    ∀ st : AckState, st.waitingForAckFrom = some dest →
      (processAll st l).ackResponseStatus = st.ackResponseStatus ∨
      ∃ p ∈ l, cliAckMatch dest p = true ∧
        (processAll st l).ackResponseStatus = packetReason p := by
  induction l with
  | nil => intro st _; exact Or.inl rfl
  | cons p l ih =>
      intro st h
      have hrun : processAll st (p :: l) = processAll (onReceive st p).1 l := rfl
      have hw : ((onReceive st p).1).waitingForAckFrom = some dest := by
        rw [onReceive_waiting]; exact h
      by_cases hp : cliAckMatch dest p = true
      · have hstep := onReceive_match st dest p h hp
        rcases ih (onReceive st p).1 hw with h1 | ⟨q, hq, hmq, hsq⟩
        · refine Or.inr ⟨p, List.mem_cons_self p l, hp, ?_⟩
          rw [hrun, h1, hstep]
        · exact Or.inr ⟨q, List.mem_cons_of_mem p hq, hmq, by rw [hrun]; exact hsq⟩
      · have h1 := (onReceive_no_match st dest p h (Bool.not_eq_true _ ▸ hp)).1
        rcases ih (onReceive st p).1 hw with h2 | ⟨q, hq, hmq, hsq⟩
        · exact Or.inl (by rw [hrun, h2, h1])
        · exact Or.inr ⟨q, List.mem_cons_of_mem p hq, hmq, by rw [hrun]; exact hsq⟩

/-- When the correlator is armed but the packet has a decoded payload
and does not match, `on_receive` falls through to the display block. -/
theorem onReceive_displayed (st : AckState) (dest : String) (pkt : Packet) (d : Decoded)
    (h : st.waitingForAckFrom = some dest) (hd : pkt.decoded = some d)
    (hm : cliAckMatch dest pkt = false) :
    onReceive st pkt = (st, PacketDisposition.displayed) := by
  rcases pkt with ⟨dd, f⟩
  cases dd with
  | none => simp at hd
  | some d0 =>
      simp only [cliAckMatch] at hm
      simp [onReceive, h, hm]

/-- When the GUI correlator is armed for `dest` but the packet's
`fromId` or decoded `portnum` rules out a match, the GUI callback queues
the packet unchanged. -/
theorem guiOnPacketReceived_no_match (st : AckState) (dest : String) (pkt : Packet)
    (h : st.waitingForAckFrom = some dest)
    (hm : ¬ (pkt.fromId = some dest ∧ pkt.decoded.bind Decoded.portnum = some "ROUTING_APP")) :
    guiOnPacketReceived st pkt = (st, true) := by
  simp only [guiOnPacketReceived, h]
  split
  · next hcond =>
      simp only [Bool.and_eq_true, beq_iff_eq] at hcond
      exact absurd ⟨hcond.1.2, hcond.2⟩ hm
  · rfl

/-! ## The claims -/

/-- C5: with no expectation armed (`waiting_for_ack_from = None`), the
correlator part of the inbound callback performs no mutation of the
correlator state and never consumes the packet — a packet with a decoded
payload falls through to the ordinary display block in the CLI, and the
GUI callback always queues the packet for display unchanged. -/
theorem claim_C5 (st : AckState) (pkt : Packet)
    (h : st.waitingForAckFrom = none) :
    (onReceive st pkt).1 = st ∧
    (onReceive st pkt).2 ≠ PacketDisposition.consumed ∧
    (pkt.decoded ≠ none → (onReceive st pkt).2 = PacketDisposition.displayed) ∧
    guiOnPacketReceived st pkt = (st, true) := by
  refine ⟨(onReceive_unarmed st pkt h).1, (onReceive_unarmed st pkt h).2, ?_,
    guiOnPacketReceived_unarmed st pkt h⟩
  intro hd
  rcases pkt with ⟨dd, f⟩
  cases dd with
  | none => simp at hd
  | some d0 => simp [onReceive, h]

/-- Witness for C5, at the initial (unarmed) state and a well-formed
routing packet. -/
theorem claim_C5_witness :
    (onReceive initAckState (routingPacket "!aaaaaaaa" "NONE")).1 = initAckState ∧
    (onReceive initAckState (routingPacket "!aaaaaaaa" "NONE")).2 ≠ PacketDisposition.consumed ∧
    ((routingPacket "!aaaaaaaa" "NONE").decoded ≠ none →
      (onReceive initAckState (routingPacket "!aaaaaaaa" "NONE")).2 = PacketDisposition.displayed) ∧
    guiOnPacketReceived initAckState (routingPacket "!aaaaaaaa" "NONE") = (initAckState, true) :=
  claim_C5 initAckState (routingPacket "!aaaaaaaa" "NONE") rfl

/-- C6: while armed for `X`, a ROUTING packet whose source differs from
`X` is not consumed and passes unmodified to the ordinary display path,
and a non-ROUTING packet from `X` is likewise not consumed — in both
the CLI and the GUI callback. -/
theorem claim_C6 :
    (∀ (st : AckState) (X : String) (pkt : Packet) (d : Decoded),
        st.waitingForAckFrom = some X → pkt.decoded = some d →
        pkt.fromId.getD "N/A" ≠ X →
        onReceive st pkt = (st, PacketDisposition.displayed) ∧
        guiOnPacketReceived st pkt = (st, true)) ∧
    (∀ (st : AckState) (X : String) (pkt : Packet) (d : Decoded),
        st.waitingForAckFrom = some X → pkt.decoded = some d →
        d.portnum.getD "N_A" ≠ "ROUTING_APP" →
        onReceive st pkt = (st, PacketDisposition.displayed) ∧
        guiOnPacketReceived st pkt = (st, true)) := by
  constructor
  · intro st X pkt d h hd hsrc
    refine ⟨onReceive_displayed st X pkt d h hd ?_, guiOnPacketReceived_no_match st X pkt h ?_⟩
    · rcases pkt with ⟨dd, f⟩
      cases dd with
      | none => simp at hd
      | some d0 => simp_all [cliAckMatch]
    · rintro ⟨h1, _⟩
      rw [h1] at hsrc
      simp at hsrc
  · intro st X pkt d h hd hport
    refine ⟨onReceive_displayed st X pkt d h hd ?_, guiOnPacketReceived_no_match st X pkt h ?_⟩
    · rcases pkt with ⟨dd, f⟩
      cases dd with
      | none => simp at hd
      | some d0 =>
          have hd0 : d0 = d := by simpa using hd
          subst hd0
          simp_all [cliAckMatch]
    · rintro ⟨_, h2⟩
      rw [hd] at h2
      simp only [Option.some_bind] at h2
      rw [h2] at hport
      simp at hport

/-- Witness for C6: armed for `!aaaaaaaa`, a ROUTING packet from
`!bbbbbbbb` and a text packet from `!aaaaaaaa` are both displayed, not
consumed. -/
theorem claim_C6_witness :
    onReceive (armAck initAckState "!aaaaaaaa") (routingPacket "!bbbbbbbb" "NONE") =
      (armAck initAckState "!aaaaaaaa", PacketDisposition.displayed) ∧
    onReceive (armAck initAckState "!aaaaaaaa")
        { decoded := some { portnum := some "TEXT_MESSAGE_APP", routing := none },
          fromId := some "!aaaaaaaa" } =
      (armAck initAckState "!aaaaaaaa", PacketDisposition.displayed) :=
  ⟨(claim_C6.1 (armAck initAckState "!aaaaaaaa") "!aaaaaaaa"
      (routingPacket "!bbbbbbbb" "NONE") _ rfl rfl (by decide)).1,
   (claim_C6.2 (armAck initAckState "!aaaaaaaa") "!aaaaaaaa"
      { decoded := some { portnum := some "TEXT_MESSAGE_APP", routing := none },
        fromId := some "!aaaaaaaa" } _ rfl rfl (by decide)).1⟩

/-- C1 counterexample: consuming a matching ROUTING packet does not
clear `waiting_for_ack_from` (only `disarm` does), so after arming for
`!aaaaaaaa` and consuming a first matching routing packet, a second
ROUTING packet from `!aaaaaaaa` is again treated as matching — it is
consumed, withheld from display, and its reason overwrites the recorded
result — with no intervening `arm`.  This refutes "no subsequent event
is treated as matching until the next arm." -/
theorem claim_C1_counterexample :
    (onReceive (armAck initAckState "!aaaaaaaa") (routingPacket "!aaaaaaaa" "NONE")).2 =
      PacketDisposition.consumed ∧
    (onReceive (onReceive (armAck initAckState "!aaaaaaaa") (routingPacket "!aaaaaaaa" "NONE")).1
        (routingPacket "!aaaaaaaa" "MAX_RETRANSMIT")).2 = PacketDisposition.consumed ∧
    (onReceive (onReceive (armAck initAckState "!aaaaaaaa") (routingPacket "!aaaaaaaa" "NONE")).1
        (routingPacket "!aaaaaaaa" "MAX_RETRANSMIT")).1.ackResponseStatus = "MAX_RETRANSMIT" := by
  decide

/-- C1 as amended: while the expectation is armed for `X` (from `arm(X)`
until the matching `disarm`), **every** inbound ROUTING packet with
source `X` is consumed — its reason code recorded (a later match
overwrites an earlier one), the ready signal set, the packet withheld
from display — and the expectation stays armed; consumption stops at
`disarm`, which clears the expected source, after which no packet is
consumed and the state is no longer mutated. -/
theorem claim_C1_amended (st : AckState) (X : String) (pkt : Packet)
    (h : st.waitingForAckFrom = some X) (hm : cliAckMatch X pkt = true) :
    onReceive st pkt =
      ({ st with ackResponseStatus := packetReason pkt, ackReceived := true },
        PacketDisposition.consumed) ∧
    ((onReceive st pkt).1).waitingForAckFrom = some X ∧
    (∀ pkt2 : Packet,
      (onReceive (disarmAck (onReceive st pkt).1).2 pkt2).1 = (disarmAck (onReceive st pkt).1).2 ∧
      (onReceive (disarmAck (onReceive st pkt).1).2 pkt2).2 ≠ PacketDisposition.consumed) := by
  refine ⟨onReceive_match st X pkt h hm, ?_, ?_⟩
  · rw [onReceive_waiting]; exact h
  · intro pkt2
    exact onReceive_unarmed _ pkt2 rfl

/-- Witness for the amended C1, at a concrete armed state and matching
packet. -/
theorem claim_C1_amended_witness :
    onReceive (armAck initAckState "!aaaaaaaa") (routingPacket "!aaaaaaaa" "NO_RESPONSE") =
      ({ armAck initAckState "!aaaaaaaa" with
          ackResponseStatus := packetReason (routingPacket "!aaaaaaaa" "NO_RESPONSE"),
          ackReceived := true }, PacketDisposition.consumed) ∧
    ((onReceive (armAck initAckState "!aaaaaaaa")
        (routingPacket "!aaaaaaaa" "NO_RESPONSE")).1).waitingForAckFrom = some "!aaaaaaaa" ∧
    (∀ pkt2 : Packet,
      (onReceive (disarmAck (onReceive (armAck initAckState "!aaaaaaaa")
          (routingPacket "!aaaaaaaa" "NO_RESPONSE")).1).2 pkt2).1 =
        (disarmAck (onReceive (armAck initAckState "!aaaaaaaa")
          (routingPacket "!aaaaaaaa" "NO_RESPONSE")).1).2 ∧
      (onReceive (disarmAck (onReceive (armAck initAckState "!aaaaaaaa")
          (routingPacket "!aaaaaaaa" "NO_RESPONSE")).1).2 pkt2).2 ≠
        PacketDisposition.consumed) :=
  claim_C1_amended (armAck initAckState "!aaaaaaaa") "!aaaaaaaa"
    (routingPacket "!aaaaaaaa" "NO_RESPONSE") rfl (by decide)

/-- C3 counterexample: nothing rejects or serializes a second
send-and-wait while one is outstanding.  The interleaving "op1 arms for
`!aaaaaaaa`; op2 arms for `!bbbbbbbb` (silently overwriting op1's
expectation); op2's acknowledgment from `!bbbbbbbb` arrives and is
consumed, setting the shared ready event (releasing op1's wait too);
op1 disarms" is realizable step by step in the code and ends with op1
reading status `NONE` — op1 reports "delivered" to `!aaaaaaaa` on the
strength of `!bbbbbbbb`'s acknowledgment, and the genuine
acknowledgment from `!aaaaaaaa`, arriving after op1's disarm, is no
longer consumed.  The two cycles interleave, refuting "rejected or
serialized, never interleaved." -/
theorem claim_C3_counterexample :
    (armAck initAckState "!aaaaaaaa").waitingForAckFrom = some "!aaaaaaaa" ∧
    (armAck (armAck initAckState "!aaaaaaaa") "!bbbbbbbb").waitingForAckFrom = some "!bbbbbbbb" ∧
    (onReceive (armAck (armAck initAckState "!aaaaaaaa") "!bbbbbbbb")
        (routingPacket "!bbbbbbbb" "NONE")).2 = PacketDisposition.consumed ∧
    (onReceive (armAck (armAck initAckState "!aaaaaaaa") "!bbbbbbbb")
        (routingPacket "!bbbbbbbb" "NONE")).1.ackReceived = true ∧
    (disarmAck (onReceive (armAck (armAck initAckState "!aaaaaaaa") "!bbbbbbbb")
        (routingPacket "!bbbbbbbb" "NONE")).1).1 = "NONE" ∧
    classifyStatus (disarmAck (onReceive (armAck (armAck initAckState "!aaaaaaaa") "!bbbbbbbb")
        (routingPacket "!bbbbbbbb" "NONE")).1).1 = SendOutcome.delivered ∧
    (onReceive (disarmAck (onReceive (armAck (armAck initAckState "!aaaaaaaa") "!bbbbbbbb")
        (routingPacket "!bbbbbbbb" "NONE")).1).2
        (routingPacket "!aaaaaaaa" "NONE")).2 ≠ PacketDisposition.consumed := by
  decide

/-- C3 as amended: the Pending Expectation is a single shared slot, so
at most one is ever stored, but a second send-and-wait issued while one
is outstanding is neither rejected nor serialized: its arm phase
unconditionally overwrites whatever expectation is in the slot — the
armed state after `arm` is independent of the prior state — so
concurrent cycles can interleave (as the counterexample shows).  The
spec's design notes (§9) acknowledge this as the observed behavior. -/
theorem claim_C3_amended (st : AckState) (dest : String) :
    (armAck st dest).waitingForAckFrom = some dest ∧
    armAck st dest = armAck initAckState dest := by
  exact ⟨rfl, rfl⟩

/-- C2 (code bug): when `interface.sendText` raises inside
`send_direct_message_and_wait`, the `except` handler (CLI lines 425-427)
only prints the error: `waiting_for_ack_from` is left armed (not cleared
to `None`), and the error is swallowed rather than propagated.  The
stale armed state then keeps consuming — and withholding from display —
ROUTING packets from the old destination even though no send-and-wait is
outstanding.  (The GUI handler, lines 446-447, likewise only logs.) -/
theorem claim_C2_bug :
    (sendDirectAndWaitSendError initAckState "!aaaaaaaa").waitingForAckFrom = some "!aaaaaaaa" ∧
    sendDirectAndWaitSendError initAckState "!aaaaaaaa" ≠ initAckState ∧
    (onReceive (sendDirectAndWaitSendError initAckState "!aaaaaaaa")
        (routingPacket "!aaaaaaaa" "NONE")).2 = PacketDisposition.consumed := by
  decide

/-- C4 counterexample: the timeout sentinel is in-band.  A consumed
matching ROUTING packet carrying the literal reason `UNKNOWN` makes
disarm return `UNKNOWN`, which the classification (CLI lines 415-420)
reports as a timeout, not as a failure with that value — refuting "any
other carried value is classified as failure with that value surfaced
verbatim." -/
theorem claim_C4_counterexample :
    (onReceive (armAck initAckState "!cccccccc") (routingPacket "!cccccccc" "UNKNOWN")).2 =
      PacketDisposition.consumed ∧
    (disarmAck (onReceive (armAck initAckState "!cccccccc")
        (routingPacket "!cccccccc" "UNKNOWN")).1).1 = "UNKNOWN" ∧
    classifyStatus (disarmAck (onReceive (armAck initAckState "!cccccccc")
        (routingPacket "!cccccccc" "UNKNOWN")).1).1 = SendOutcome.timeout ∧
    classifyStatus (disarmAck (onReceive (armAck initAckState "!cccccccc")
        (routingPacket "!cccccccc" "UNKNOWN")).1).1 ≠ SendOutcome.failed "UNKNOWN" := by
  decide

/-- C4 as amended: disarm after a consumed match returns exactly the
reason code carried in the event's routing payload; `NONE` is classified
as delivered and any carried value other than `NONE` **and other than
the literal `UNKNOWN`** is classified as failure with that value
surfaced verbatim; a carried `UNKNOWN` is classified as a timeout
(delivery unconfirmed), indistinguishable from no acknowledgment at
all. -/
theorem claim_C4_amended (st : AckState) (X r : String) (pkt : Packet)
    (h : st.waitingForAckFrom = some X) (hm : cliAckMatch X pkt = true)
    (hr : (pkt.decoded.bind Decoded.routing).bind Routing.errorReason = some r) :
    (disarmAck (onReceive st pkt).1).1 = r ∧
    (r = "NONE" → classifyStatus r = SendOutcome.delivered) ∧
    (r ≠ "NONE" → r ≠ "UNKNOWN" → classifyStatus r = SendOutcome.failed r) ∧
    (r = "UNKNOWN" → classifyStatus r = SendOutcome.timeout) := by
  refine ⟨?_, ?_, ?_, ?_⟩
  · rw [onReceive_match st X pkt h hm]
    simp [disarmAck, packetReason, hr]
  · intro h1; subst h1; rfl
  · intro h1 h2
    simp only [classifyStatus]
    rw [if_neg (by simpa using h1), if_neg (by simpa using h2)]
  · intro h1; subst h1; rfl

/-- Witness for the amended C4, with the carried failure reason
`NO_RESPONSE`. -/
theorem claim_C4_amended_witness :
    (disarmAck (onReceive (armAck initAckState "!cccccccc")
        (routingPacket "!cccccccc" "NO_RESPONSE")).1).1 = "NO_RESPONSE" ∧
    ("NO_RESPONSE" = "NONE" → classifyStatus "NO_RESPONSE" = SendOutcome.delivered) ∧
    ("NO_RESPONSE" ≠ "NONE" → "NO_RESPONSE" ≠ "UNKNOWN" →
      classifyStatus "NO_RESPONSE" = SendOutcome.failed "NO_RESPONSE") ∧
    ("NO_RESPONSE" = "UNKNOWN" → classifyStatus "NO_RESPONSE" = SendOutcome.timeout) :=
  claim_C4_amended (armAck initAckState "!cccccccc") "!cccccccc" "NO_RESPONSE"
    (routingPacket "!cccccccc" "NO_RESPONSE") rfl (by decide) rfl

/-- C7: the blocking wait is bounded by the 15-second timeout constant,
and if no matching ROUTING packet is observed while armed, disarm reads
`UNKNOWN` and the operation classifies the outcome as a timeout
(delivery unconfirmed), not as a failure or an error. -/
theorem claim_C7 (st : AckState) (dest : String) (inbound : List Packet)
    (hnm : ∀ p ∈ inbound, cliAckMatch dest p = false) :
    ackTimeoutSeconds = 15 ∧
    (disarmAck (processAll (armAck st dest) inbound)).1 = "UNKNOWN" ∧
    (sendDirectAndWait st dest inbound).1 = SendOutcome.timeout := by
  have hp := processAll_no_match dest inbound (armAck st dest) rfl hnm
  refine ⟨rfl, ?_, ?_⟩
  · rw [hp]; rfl
  · simp only [sendDirectAndWait]
    rw [hp]
    rfl

/-- Witness for C7: armed for `!bbbbbbbb` while only an unrelated
acknowledgment arrives. -/
theorem claim_C7_witness :
    ackTimeoutSeconds = 15 ∧
    (disarmAck (processAll (armAck initAckState "!bbbbbbbb")
        [routingPacket "!aaaaaaaa" "NONE"])).1 = "UNKNOWN" ∧
    (sendDirectAndWait initAckState "!bbbbbbbb" [routingPacket "!aaaaaaaa" "NONE"]).1 =
      SendOutcome.timeout :=
  claim_C7 initAckState "!bbbbbbbb" [routingPacket "!aaaaaaaa" "NONE"] (by decide)

/-- C8 counterexample: a matching ROUTING packet whose routing payload
lacks the `errorReason` field is **not** skipped as ordinary traffic: in
both variants it is consumed (withheld from display) with the default
reason code `UNKNOWN_RESPONSE` recorded — refuting "the correlator skips
it as ordinary traffic and hands it to the presentation path." -/
theorem claim_C8_counterexample :
    (onReceive (armAck initAckState "!aaaaaaaa")
        { decoded := some { portnum := some "ROUTING_APP", routing := some { errorReason := none } },
          fromId := some "!aaaaaaaa" }).2 = PacketDisposition.consumed ∧
    (onReceive (armAck initAckState "!aaaaaaaa")
        { decoded := some { portnum := some "ROUTING_APP", routing := some { errorReason := none } },
          fromId := some "!aaaaaaaa" }).1.ackResponseStatus = "UNKNOWN_RESPONSE" ∧
    (guiOnPacketReceived (armAck initAckState "!aaaaaaaa")
        { decoded := some { portnum := some "ROUTING_APP", routing := some { errorReason := none } },
          fromId := some "!aaaaaaaa" }).2 = false := by
  decide

/-- C8 as amended: an event with no decoded payload is skipped by the
correlator without any mutation and never consumed (the CLI's early
`return` drops it before display; the GUI hands it to the display
queue); but a matching ROUTING event whose routing payload lacks the
error-reason field is consumed with the default reason code
`UNKNOWN_RESPONSE` (later surfaced as a failure), not passed through.
Processing never raises: the embedded callbacks are total functions
(and the CLI display block is additionally wrapped in a
catch-and-print handler, lines 110-112). -/
theorem claim_C8_amended :
    (∀ (st : AckState) (pkt : Packet), pkt.decoded = none →
        onReceive st pkt = (st, PacketDisposition.dropped) ∧
        (guiOnPacketReceived st pkt).1 = st ∧ (guiOnPacketReceived st pkt).2 = true) ∧
    (∀ (st : AckState) (X : String) (pkt : Packet),
        st.waitingForAckFrom = some X → cliAckMatch X pkt = true →
        (pkt.decoded.bind Decoded.routing).bind Routing.errorReason = none →
        onReceive st pkt =
          ({ st with ackResponseStatus := "UNKNOWN_RESPONSE", ackReceived := true },
            PacketDisposition.consumed)) := by
  constructor
  · intro st pkt hdec
    have h1 : onReceive st pkt = (st, PacketDisposition.dropped) := by
      rcases pkt with ⟨dd, f⟩
      cases dd with
      | none => rfl
      | some d0 => simp at hdec
    refine ⟨h1, ?_⟩
    cases hw : st.waitingForAckFrom with
    | none => simp [guiOnPacketReceived, hw]
    | some w => simp [guiOnPacketReceived, hw, hdec]
  · intro st X pkt h hm hr
    rw [onReceive_match st X pkt h hm]
    simp [packetReason, hr]

/-- Witness for the amended C8: a packet without a decoded payload is
dropped/queued untouched, and a matching ROUTING packet without an
`errorReason` is consumed with the default reason. -/
theorem claim_C8_amended_witness :
    (onReceive initAckState { decoded := none, fromId := some "!aaaaaaaa" } =
      (initAckState, PacketDisposition.dropped) ∧
      (guiOnPacketReceived initAckState { decoded := none, fromId := some "!aaaaaaaa" }).1 =
        initAckState ∧
      (guiOnPacketReceived initAckState { decoded := none, fromId := some "!aaaaaaaa" }).2 =
        true) ∧
    onReceive (armAck initAckState "!aaaaaaaa")
        { decoded := some { portnum := some "ROUTING_APP", routing := none },
          fromId := some "!aaaaaaaa" } =
      ({ armAck initAckState "!aaaaaaaa" with
          ackResponseStatus := "UNKNOWN_RESPONSE", ackReceived := true },
        PacketDisposition.consumed) :=
  ⟨claim_C8_amended.1 initAckState { decoded := none, fromId := some "!aaaaaaaa" } rfl,
   claim_C8_amended.2 (armAck initAckState "!aaaaaaaa") "!aaaaaaaa"
      { decoded := some { portnum := some "ROUTING_APP", routing := none },
        fromId := some "!aaaaaaaa" } rfl (by decide) rfl⟩

/-- C9: the timeout sentinel is in-band.  A consumed matching ROUTING
packet carrying the literal reason `UNKNOWN` leads to the same
`timeout` outcome as a run in which no acknowledgment arrived at all,
so the caller cannot distinguish the two. -/
theorem claim_C9 (st : AckState) (dest : String) (hd : dest ≠ "") :
    (onReceive (armAck st dest) (routingPacket dest "UNKNOWN")).2 = PacketDisposition.consumed ∧
    (sendDirectAndWait st dest [routingPacket dest "UNKNOWN"]).1 = SendOutcome.timeout ∧
    (sendDirectAndWait st dest []).1 = SendOutcome.timeout ∧
    (sendDirectAndWait st dest [routingPacket dest "UNKNOWN"]).1 =
      (sendDirectAndWait st dest []).1 := by
  have hm : cliAckMatch dest (routingPacket dest "UNKNOWN") = true := by
    simp [cliAckMatch, routingPacket, hd]
  have hstep := onReceive_match (armAck st dest) dest (routingPacket dest "UNKNOWN") rfl hm
  have h2 : (sendDirectAndWait st dest [routingPacket dest "UNKNOWN"]).1 =
      SendOutcome.timeout := by
    simp only [sendDirectAndWait, processAll, List.foldl]
    rw [hstep]
    rfl
  have h3 : (sendDirectAndWait st dest []).1 = SendOutcome.timeout := rfl
  exact ⟨by rw [hstep], h2, h3, h2.trans h3.symm⟩

/-- Witness for C9 at a concrete destination. -/
theorem claim_C9_witness :
    (onReceive (armAck initAckState "!aaaaaaaa")
        (routingPacket "!aaaaaaaa" "UNKNOWN")).2 = PacketDisposition.consumed ∧
    (sendDirectAndWait initAckState "!aaaaaaaa"
        [routingPacket "!aaaaaaaa" "UNKNOWN"]).1 = SendOutcome.timeout ∧
    (sendDirectAndWait initAckState "!aaaaaaaa" []).1 = SendOutcome.timeout ∧
    (sendDirectAndWait initAckState "!aaaaaaaa"
        [routingPacket "!aaaaaaaa" "UNKNOWN"]).1 =
      (sendDirectAndWait initAckState "!aaaaaaaa" []).1 :=
  claim_C9 initAckState "!aaaaaaaa" (by decide)

/-- C10: no stale result crosses operations.  Arming resets the recorded
status to `UNKNOWN` and clears the ready signal (and in the send
operation this happens before `sendText` is invoked); with no
expectation armed the inbound callback never writes the state; and the
status that disarm reads after arming for `dest` and processing any
inbound packets is either `UNKNOWN` or the reason code of some matching
packet observed after that arm. -/
theorem claim_C10 (st : AckState) (dest : String) (inbound : List Packet) :
    (armAck st dest).ackResponseStatus = "UNKNOWN" ∧
    (armAck st dest).ackReceived = false ∧
    (∀ (st0 : AckState) (pkt : Packet), st0.waitingForAckFrom = none →
        (onReceive st0 pkt).1 = st0) ∧
    ((disarmAck (processAll (armAck st dest) inbound)).1 = "UNKNOWN" ∨
      ∃ p ∈ inbound, cliAckMatch dest p = true ∧
        (disarmAck (processAll (armAck st dest) inbound)).1 = packetReason p) := by
  refine ⟨rfl, rfl, ?_, ?_⟩
  · intro st0 pkt h0
    exact (onReceive_unarmed st0 pkt h0).1
  · rcases processAll_status dest inbound (armAck st dest) rfl with h1 | ⟨p, hp, hmp, hsp⟩
    · exact Or.inl (h1.trans rfl)
    · exact Or.inr ⟨p, hp, hmp, hsp⟩

/-- Witness for C10, instantiated at a concrete arm and inbound run. -/
theorem claim_C10_witness :
    (disarmAck (processAll (armAck initAckState "!aaaaaaaa")
        [routingPacket "!aaaaaaaa" "NO_RESPONSE"])).1 = "UNKNOWN" ∨
    ∃ p ∈ [routingPacket "!aaaaaaaa" "NO_RESPONSE"], cliAckMatch "!aaaaaaaa" p = true ∧
      (disarmAck (processAll (armAck initAckState "!aaaaaaaa")
        [routingPacket "!aaaaaaaa" "NO_RESPONSE"])).1 = packetReason p :=
  (claim_C10 initAckState "!aaaaaaaa" [routingPacket "!aaaaaaaa" "NO_RESPONSE"]).2.2.2
